import Mathlib

/-!
Verification of the heart_simulation repository's ECG core: the interval-based
BPM estimator (`calculateStableBPM`, `loadEcgData` from the bundled source),
the synthetic PQRST generator (`generateRealisticECG` from `ecgGenerator`),
and the worker-side interval-walking generator (`generateECGPoint` from
`ECGVisualization.js`).  JavaScript numbers are embedded as rationals (ℚ) for
all control-flow-relevant arithmetic and as reals (ℝ) where `Math.sin`,
`Math.cos`, `Math.exp` enter a sample value.  `Math.round` is embedded as
`⌊x + 1/2⌋` (JS rounds half toward +∞), and the float remainder `%` on
non-negative operands as `a - b * ⌊a / b⌋`.
-/

namespace HeartSim

/-- Cardiac phase interval record, as consumed by `calculateStableBPM`.
The JS code checks `typeof event.entry === 'number'`; a field holding a
non-number JSON value is modelled as `none`. -/
structure IntervalRecord where
  phase : String
  entry : Option ℚ
  duration : Option ℚ
deriving DecidableEq

/-- Error kinds thrown by `calculateStableBPM` (the three `throw new Error`
sites, in source order). -/
inductive BPMError where
  | insufficientData
  | noValidRR
  | outOfRange (bpm : ℤ)
deriving DecidableEq

/-- JavaScript `Math.round`: round half toward positive infinity. -/
def jsRound (q : ℚ) : ℤ := ⌊q + 1/2⌋

/-- JavaScript `%` (float remainder) for the non-negative operands used by the
generator: `a - b * ⌊a / b⌋` agrees with JS `a % b` whenever `a ≥ 0, b > 0`. -/
def jsMod (a b : ℚ) : ℚ := a - b * ⌊a / b⌋

/-- Filter predicate of step 1 of `calculateStableBPM`: phase is "QRS" and
both `entry` and `duration` are numbers. -/
def isQRSEvent (e : IntervalRecord) : Bool :=
  e.phase == "QRS" && e.entry.isSome && e.duration.isSome

/-- Entry time of a record; only read after `isQRSEvent` guarantees `isSome`. -/
def entryOf (e : IntervalRecord) : ℚ := e.entry.getD 0

/-- Successive differences of consecutive QRS entry times: the loop
`for (let i = 1; i < qrsEvents.length; i++)` computing
`qrsEvents[i].entry - qrsEvents[i-1].entry`. -/
def rrIntervals : List ℚ → List ℚ
  | a :: b :: rest => (b - a) :: rrIntervals (b :: rest)
  | _ => []

/-- The physiological-plausibility test `rrInterval > 0.3 && rrInterval < 2.0`. -/
def validRR (rr : ℚ) : Bool := decide ((0.3 : ℚ) < rr ∧ rr < (2.0 : ℚ))

/-- Body of `calculateStableBPM` after the initial filter.  `totalRR` and
`validRRCount` of the source loop are the sum and length of the valid-RR
sublist. -/
def bpmFromQRS (qrsEvents : List IntervalRecord) : Except BPMError ℤ :=
  if qrsEvents.length < 2 then .error .insufficientData
  else
    let validRRs := (rrIntervals (qrsEvents.map entryOf)).filter validRR
    if validRRs.length = 0 then .error .noValidRR
    else
      let avgRR := validRRs.sum / (validRRs.length : ℚ)
      let bpm := jsRound (60 / avgRR)
      if bpm < 40 ∨ bpm > 180 then .error (.outOfRange bpm)
      else .ok bpm

/-- `calculateStableBPM` from the bundled source: filter to QRS events with
numeric timing data, then compute the average valid RR interval and round
`60 / avgRR`. -/
def calculateStableBPM (intervals : List IntervalRecord) : Except BPMError ℤ :=
  bpmFromQRS (intervals.filter isQRSEvent)

/-- View of an `Except` result as a sum, to derive decidable equality. -/
def exceptToSum : Except BPMError ℤ → BPMError ⊕ ℤ
  | .error e => .inl e
  | .ok v => .inr v

instance : DecidableEq (Except BPMError ℤ) := fun a b =>
  decidable_of_iff (exceptToSum a = exceptToSum b)
    (by cases a <;> cases b <;> simp [exceptToSum])

/-- Surviving RR intervals of an input sequence: successive differences of the
qualifying QRS entry times, restricted to the open range (0.3, 2.0). -/
def survivingRRs (intervals : List IntervalRecord) : List ℚ :=
  (rrIntervals ((intervals.filter isQRSEvent).map entryOf)).filter validRR

/-- ECG sample record `{time, value}` produced by the generators.  The time
grid is exact (rational); the voltage value involves `Math.sin` and is real. -/
structure SamplePoint where
  time : ℚ
  value : ℝ

/-- Samples per cardiac cycle: `(60 / heartRate) * samplingRate`.  This is a
JS float expression, in general not an integer. -/
def samplesPerBeat (samplingRate heartRate : ℚ) : ℚ := (60 / heartRate) * samplingRate

/-- Position of sample `i` within its cardiac cycle:
`(i % samplesPerBeat) / samplesPerBeat`. -/
def posInBeat (spb : ℚ) (i : ℕ) : ℚ := jsMod (i : ℚ) spb / spb

/-- Noise-free sample value of `generateRealisticECG` as a function of the
position in the beat: the if/else-if chain over `posInBeat`, with the R-wave
branch overriding the Q-wave value on the sub-window [0.22, 0.28). -/
noncomputable def ecgPhaseValue (p : ℚ) : ℝ :=
  if 0.1 ≤ p ∧ p < 0.2 then
    0.25 * Real.sin (((p : ℝ) - 0.1) * Real.pi * 10)
  else if 0.2 ≤ p ∧ p < 0.3 then
    if 0.22 ≤ p ∧ p < 0.28 then 1.5 * Real.sin (((p : ℝ) - 0.22) * Real.pi * 16.67)
    else -0.2 * Real.sin (((p : ℝ) - 0.2) * Real.pi * 20)
  else if 0.4 ≤ p ∧ p < 0.6 then
    0.3 * Real.sin (((p : ℝ) - 0.4) * Real.pi * 5)
  else 0

/-- The synthetic generator `generateRealisticECG(length, samplingRate,
heartRate)` from `ecgGenerator`.  The call `(Math.random() - 0.5) * 0.05`
adding noise to sample `i` is abstracted as an arbitrary per-sample noise
function `noise : ℕ → ℚ`; the source draws it uniformly from
[-0.025, 0.025]. -/
noncomputable def generateRealisticECG (length : ℕ) (samplingRate heartRate : ℚ)
    (noise : ℕ → ℚ) : List SamplePoint :=
  (List.range length).map fun (i : ℕ) =>
    { time := (i : ℚ) / samplingRate
      value := ecgPhaseValue (posInBeat (samplesPerBeat samplingRate heartRate) i) + (noise i : ℝ) }

/-- Modelled from the spec: a half-sine of amplitude `amp` over the cycle
window [a, b), evaluated at cycle position `p`. -/
noncomputable def halfSine (amp a b p : ℚ) : ℝ :=
  (amp : ℝ) * Real.sin (Real.pi * ((p : ℝ) - a) / ((b : ℝ) - a))

/-- Modelled from the spec: the piecewise waveform exactly as the spec words
it — P, Q (overridden by R on [0.22, 0.28)) and T are all called half-sines
over their windows, baseline 0 elsewhere. -/
noncomputable def specWaveform (p : ℚ) : ℝ :=
  if 0.1 ≤ p ∧ p < 0.2 then halfSine 0.25 0.1 0.2 p
  else if 0.2 ≤ p ∧ p < 0.3 then
    if 0.22 ≤ p ∧ p < 0.28 then halfSine 1.5 0.22 0.28 p
    else halfSine (-0.2) 0.2 0.3 p
  else if 0.4 ≤ p ∧ p < 0.6 then halfSine 0.3 0.4 0.6 p
  else 0

/-- Amended description of the noise-free waveform: P and T are half-sines as
the spec says, but the Q-wave base uses a full-period sine over its window
(`sin(2π(p-0.2)/0.1)`), and the R-wave override uses the literal frequency
coefficient 16.67 (not the exact half-sine coefficient 50/3). -/
noncomputable def amendedWaveform (p : ℚ) : ℝ :=
  if 0.1 ≤ p ∧ p < 0.2 then halfSine 0.25 0.1 0.2 p
  else if 0.2 ≤ p ∧ p < 0.3 then
    if 0.22 ≤ p ∧ p < 0.28 then
      (1.5 : ℝ) * Real.sin (((p : ℝ) - 0.22) * Real.pi * 16.67)
    else (-0.2 : ℝ) * Real.sin (2 * Real.pi * ((p : ℝ) - 0.2) / ((0.3 : ℝ) - 0.2))
  else if 0.4 ≤ p ∧ p < 0.6 then halfSine 0.3 0.4 0.6 p
  else 0

/-- Outcome of the `fetch('/pqrst_intervals.json')` + `response.json()` +
array check prelude of `loadEcgData`: the fetch/parse itself may fail, the
parsed JSON may not be an array, or it yields a list of records. -/
inductive FetchOutcome where
  | fetchFailed
  | notArray
  | array (records : List IntervalRecord)

/-- The exported `ECG_CONFIG.SAMPLING_RATE` from `animationConfig.js`. -/
def SAMPLING_RATE : ℚ := 360

/-- Fallback BPM used in the catch branch of `loadEcgData`. -/
def fallbackBPM : ℤ := 72

/-- The loader `loadEcgData`: on success it reports the stable BPM and
generates 1000 samples at that rate; any throw inside the try block (fetch
failure, non-array JSON, or a `calculateStableBPM` error) reaches the catch
branch, which reports BPM 72 and generates 1000 samples at 72.  The pair
returned is (BPM passed to `setRealBPM`, returned sample list). -/
noncomputable def loadEcgData (res : FetchOutcome) (noise : ℕ → ℚ) : ℤ × List SamplePoint :=
  match res with
  | .array records =>
    match calculateStableBPM records with
    | .ok bpm => (bpm, generateRealisticECG 1000 SAMPLING_RATE (bpm : ℚ) noise)
    | .error _ => (fallbackBPM, generateRealisticECG 1000 SAMPLING_RATE 72 noise)
  | _ => (fallbackBPM, generateRealisticECG 1000 SAMPLING_RATE 72 noise)

/-- Phase interval as consumed by the worker generator in
`ECGVisualization.js`; its fields are used directly without type checks. -/
structure PhaseInterval where
  phase : String
  entry : ℚ
  duration : ℚ
deriving DecidableEq

/-- Containment test of the worker loop:
`time >= interval.entry && time < interval.entry + interval.duration`. -/
def containsTime (iv : PhaseInterval) (t : ℚ) : Bool :=
  decide (iv.entry ≤ t ∧ t < iv.entry + iv.duration)

/-- The `switch (interval.phase)` of the worker generator, as a function of
the phase label and `phaseProgress = (time - entry) / duration`. -/
noncomputable def phaseShape (phase : String) (pp : ℚ) : ℝ :=
  if phase == "QRS" then
    if pp < 0.15 then -0.3 * (1 - Real.cos (((pp : ℝ) / 0.15) * (Real.pi / 2)))
    else if pp < 0.35 then 1.8 * Real.sin ((((pp : ℝ) - 0.15) / 0.2) * Real.pi)
    else if pp < 0.6 then -0.4 * (1 - ((pp : ℝ) - 0.35) / 0.25)
    else 0
  else if phase == "PQ" then
    0.2 * Real.sin (Real.pi * (pp : ℝ) * 2.5)
  else if phase == "ST" then
    if pp < 0.4 then 0.05
    else 0.35 * Real.sin ((((pp : ℝ) - 0.4) / 0.6) * Real.pi) *
      Real.exp (-(((pp : ℝ) - 0.4) / 0.6) * 2)
  else 0

/-- The worker's `generateECGPoint(time)`: walk the interval list in order and
return the phase shape of the first interval containing `time`; return 0 when
no interval contains it. -/
noncomputable def generateECGPoint (intervals : List PhaseInterval) (time : ℚ) : ℝ :=
  match intervals with
  | [] => 0
  | interval :: rest =>
    if containsTime interval time then
      phaseShape interval.phase ((time - interval.entry) / interval.duration)
    else generateECGPoint rest time

theorem generateRealisticECG_length (N : ℕ) (R H : ℚ) (noise : ℕ → ℚ) :
    (generateRealisticECG N R H noise).length = N := by
  simp [generateRealisticECG]

theorem generateRealisticECG_get? (N : ℕ) (R H : ℚ) (noise : ℕ → ℚ) (i : ℕ) (h : i < N) :
    (generateRealisticECG N R H noise).get? i =
      some ⟨(i : ℚ) / R,
        ecgPhaseValue (posInBeat (samplesPerBeat R H) i) + ((noise i : ℚ) : ℝ)⟩ := by
  simp only [generateRealisticECG, List.get?_eq_getElem?, List.getElem?_map,
    List.getElem?_range h]
  rfl

theorem abs_mul_sin_le (c x : ℝ) : |c * Real.sin x| ≤ |c| := by
  rw [abs_mul]
  nlinarith [Real.abs_sin_le_one x, abs_nonneg c]

theorem ecgPhaseValue_abs_le (p : ℚ) : |ecgPhaseValue p| ≤ 1.5 := by
  unfold ecgPhaseValue
  split_ifs
  · calc |(0.25 : ℝ) * Real.sin _| ≤ |(0.25 : ℝ)| := abs_mul_sin_le _ _
      _ ≤ 1.5 := by rw [abs_le]; norm_num
  · calc |(1.5 : ℝ) * Real.sin _| ≤ |(1.5 : ℝ)| := abs_mul_sin_le _ _
      _ ≤ 1.5 := by rw [abs_le]; norm_num
  · calc |(-0.2 : ℝ) * Real.sin _| ≤ |(-0.2 : ℝ)| := abs_mul_sin_le _ _
      _ ≤ 1.5 := by rw [abs_le]; norm_num
  · calc |(0.3 : ℝ) * Real.sin _| ≤ |(0.3 : ℝ)| := abs_mul_sin_le _ _
      _ ≤ 1.5 := by rw [abs_le]; norm_num
  · rw [abs_le]; norm_num

/-- C5: for every sample count N, rate R > 0 and heart rate H > 0,
`generateRealisticECG` returns exactly N sample records, and the i-th record's
time is i/R for every i < N. -/
theorem generateRealisticECG_contract (N : ℕ) (R H : ℚ) (noise : ℕ → ℚ)
    (hR : 0 < R) (hH : 0 < H) :
    (generateRealisticECG N R H noise).length = N ∧
      ∀ i : ℕ, i < N →
        ((generateRealisticECG N R H noise).get? i).map SamplePoint.time =
          some ((i : ℚ) / R) := by
  refine ⟨generateRealisticECG_length N R H noise, fun i hi => ?_⟩
  rw [generateRealisticECG_get? N R H noise i hi]
  rfl

/-- Witness for C5 at N = 2, R = 300, H = 72. -/
theorem generateRealisticECG_contract_witness :
    (0 : ℚ) < 300 ∧ (0 : ℚ) < 72 ∧
      ((generateRealisticECG 2 300 72 fun _ => 0).length = 2 ∧
        ∀ i : ℕ, i < 2 →
          ((generateRealisticECG 2 300 72 fun _ => 0).get? i).map SamplePoint.time =
            some ((i : ℚ) / 300)) :=
  ⟨by norm_num, by norm_num,
    generateRealisticECG_contract 2 300 72 (fun _ => 0) (by norm_num) (by norm_num)⟩

/-- C7: for N = 1000, R = 300, H = 72 and any per-sample noise within
[-0.025, 0.025], the output has length 1000, the i-th time is i/300, and every
value lies within [-1.525, 1.775]. -/
theorem generateRealisticECG_test_vector (noise : ℕ → ℚ)
    (hn : ∀ i, -0.025 ≤ noise i ∧ noise i ≤ 0.025) :
    (generateRealisticECG 1000 300 72 noise).length = 1000 ∧
      ∀ i : ℕ, i < 1000 →
        ∃ sp : SamplePoint, (generateRealisticECG 1000 300 72 noise).get? i = some sp ∧
          sp.time = (i : ℚ) / 300 ∧ (-1.525 : ℝ) ≤ sp.value ∧ sp.value ≤ 1.775 := by
  refine ⟨generateRealisticECG_length _ _ _ _, fun i hi => ?_⟩
  have hbase := abs_le.mp (ecgPhaseValue_abs_le (posInBeat (samplesPerBeat 300 72) i))
  have h1 := (Rat.cast_le (K := ℝ)).mpr (hn i).1
  have h2 := (Rat.cast_le (K := ℝ)).mpr (hn i).2
  norm_num at hbase h1 h2
  refine ⟨_, generateRealisticECG_get? 1000 300 72 noise i hi, rfl, ?_, ?_⟩ <;>
    · norm_num
      linarith

/-- Witness for C7 with the zero noise function. -/
theorem generateRealisticECG_test_vector_witness :
    (∀ i : ℕ, -0.025 ≤ (fun _ : ℕ => (0 : ℚ)) i ∧ (fun _ : ℕ => (0 : ℚ)) i ≤ 0.025) ∧
      ((generateRealisticECG 1000 300 72 fun _ => 0).length = 1000 ∧
        ∀ i : ℕ, i < 1000 →
          ∃ sp : SamplePoint,
            (generateRealisticECG 1000 300 72 fun _ => 0).get? i = some sp ∧
              sp.time = (i : ℚ) / 300 ∧ (-1.525 : ℝ) ≤ sp.value ∧ sp.value ≤ 1.775) :=
  ⟨fun _ => by norm_num, generateRealisticECG_test_vector (fun _ => 0) fun _ => by norm_num⟩

/-- C8: with the noise term fixed at 0, the generator is deterministic — two
calls with identical (N, R, H) and any two all-zero noise sources produce
identical sample sequences. -/
theorem generateRealisticECG_deterministic (N : ℕ) (R H : ℚ) (noise₁ noise₂ : ℕ → ℚ)
    (h₁ : ∀ i, noise₁ i = 0) (h₂ : ∀ i, noise₂ i = 0) :
    generateRealisticECG N R H noise₁ = generateRealisticECG N R H noise₂ := by
  unfold generateRealisticECG
  exact List.map_congr_left fun i _ => by simp [h₁ i, h₂ i]

/-- Witness for C8 with two syntactically different all-zero noise sources. -/
theorem generateRealisticECG_deterministic_witness :
    generateRealisticECG 5 300 72 (fun _ => 0) =
      generateRealisticECG 5 300 72 fun i => (i : ℚ) * 0 :=
  generateRealisticECG_deterministic 5 300 72 _ _ (fun _ => rfl) fun i => mul_zero _

/-- C6: whenever the fetch fails, the resource is not a JSON array, or the BPM
estimation throws, `loadEcgData` reports the fallback BPM 72 and returns the
generated sequence of length 1000 at rate 72 — in particular non-empty. -/
theorem loadEcgData_fallback (res : FetchOutcome) (noise : ℕ → ℚ)
    (h : res = .fetchFailed ∨ res = .notArray ∨
      ∃ records e, res = .array records ∧ calculateStableBPM records = .error e) :
    loadEcgData res noise = (72, generateRealisticECG 1000 SAMPLING_RATE 72 noise) ∧
      (loadEcgData res noise).2.length = 1000 ∧ (loadEcgData res noise).2 ≠ [] := by
  have hmain : loadEcgData res noise = (72, generateRealisticECG 1000 SAMPLING_RATE 72 noise) := by
    rcases h with h | h | ⟨records, e, h, herr⟩ <;> subst h
    · rfl
    · rfl
    · simp only [loadEcgData]
      rw [herr]
      rfl
  have hsnd : (loadEcgData res noise).2 = generateRealisticECG 1000 SAMPLING_RATE 72 noise := by
    rw [hmain]
  have hlen : (loadEcgData res noise).2.length = 1000 := by
    rw [hsnd]
    exact generateRealisticECG_length 1000 SAMPLING_RATE 72 noise
  refine ⟨hmain, hlen, fun hnil => ?_⟩
  rw [hnil] at hlen
  simp at hlen

theorem bpm_eq_insufficient (intervals : List IntervalRecord)
    (h : (intervals.filter isQRSEvent).length < 2) :
    calculateStableBPM intervals = .error .insufficientData := by
  unfold calculateStableBPM bpmFromQRS
  rw [if_pos h]

theorem bpm_eq_noValid (intervals : List IntervalRecord)
    (h2 : ¬(intervals.filter isQRSEvent).length < 2)
    (hrr : survivingRRs intervals = []) :
    calculateStableBPM intervals = .error .noValidRR := by
  unfold survivingRRs at hrr
  unfold calculateStableBPM bpmFromQRS
  rw [if_neg h2]
  dsimp only
  rw [if_pos (by rw [hrr]; rfl)]

theorem bpm_eq_outOfRange (intervals : List IntervalRecord)
    (h2 : ¬(intervals.filter isQRSEvent).length < 2)
    (hrr : survivingRRs intervals ≠ [])
    (hb : jsRound (60 / ((survivingRRs intervals).sum / ((survivingRRs intervals).length : ℚ))) < 40 ∨
      180 < jsRound (60 / ((survivingRRs intervals).sum / ((survivingRRs intervals).length : ℚ)))) :
    calculateStableBPM intervals =
      .error (.outOfRange
        (jsRound (60 / ((survivingRRs intervals).sum / ((survivingRRs intervals).length : ℚ))))) := by
  unfold survivingRRs at hrr hb ⊢
  unfold calculateStableBPM bpmFromQRS
  rw [if_neg h2]
  dsimp only
  rw [if_neg fun h => hrr (List.length_eq_zero.mp h), if_pos hb]

theorem bpm_eq_ok (intervals : List IntervalRecord)
    (h2 : ¬(intervals.filter isQRSEvent).length < 2)
    (hrr : survivingRRs intervals ≠ [])
    (hlo : 40 ≤ jsRound (60 / ((survivingRRs intervals).sum / ((survivingRRs intervals).length : ℚ))))
    (hhi : jsRound (60 / ((survivingRRs intervals).sum / ((survivingRRs intervals).length : ℚ))) ≤ 180) :
    calculateStableBPM intervals =
      .ok (jsRound (60 / ((survivingRRs intervals).sum / ((survivingRRs intervals).length : ℚ)))) := by
  unfold survivingRRs at hrr hlo hhi ⊢
  unfold calculateStableBPM bpmFromQRS
  rw [if_neg h2]
  dsimp only
  rw [if_neg fun h => hrr (List.length_eq_zero.mp h),
    if_neg (by rw [not_or]; exact ⟨not_lt.mpr hlo, not_lt.mpr hhi⟩)]

/-- Witness for C6 at the non-array outcome (e.g. the resource is `{}`). -/
theorem loadEcgData_fallback_witness :
    loadEcgData .notArray (fun _ => 0) =
        (72, generateRealisticECG 1000 SAMPLING_RATE 72 fun _ => 0) ∧
      (loadEcgData .notArray fun _ => 0).2.length = 1000 ∧
        (loadEcgData .notArray fun _ => 0).2 ≠ [] :=
  loadEcgData_fallback .notArray (fun _ => 0) (Or.inr (Or.inl rfl))

/-- C1: whenever at least 2 records qualify as QRS events with numeric entry
and duration, at least one successive QRS entry-time difference lies in the
open range (0.3, 2.0), and `round(60 / average of the surviving differences)`
lies in [40, 180], `calculateStableBPM` returns exactly that rounded value
(rounding half away from zero for these positive inputs, as JS `Math.round`
does). -/
theorem calculateStableBPM_ok (intervals : List IntervalRecord)
    (h2 : 2 ≤ (intervals.filter isQRSEvent).length)
    (hs : survivingRRs intervals ≠ [])
    (hlo : 40 ≤ jsRound (60 / ((survivingRRs intervals).sum / ((survivingRRs intervals).length : ℚ))))
    (hhi : jsRound (60 / ((survivingRRs intervals).sum / ((survivingRRs intervals).length : ℚ))) ≤ 180) :
    calculateStableBPM intervals =
      .ok (jsRound (60 / ((survivingRRs intervals).sum / ((survivingRRs intervals).length : ℚ)))) :=
  bpm_eq_ok intervals (by omega) hs hlo hhi

/-- Witness for C1: QRS events at entries [0.0, 0.8, 1.6, 2.4] yield BPM 75. -/
theorem calculateStableBPM_ok_witness :
    calculateStableBPM
      [⟨"QRS", some 0, some (0.1 : ℚ)⟩, ⟨"QRS", some (0.8 : ℚ), some (0.1 : ℚ)⟩,
       ⟨"QRS", some (1.6 : ℚ), some (0.1 : ℚ)⟩, ⟨"QRS", some (2.4 : ℚ), some (0.1 : ℚ)⟩] =
      .ok 75 := by
  have hS : survivingRRs
      [⟨"QRS", some 0, some (0.1 : ℚ)⟩, ⟨"QRS", some (0.8 : ℚ), some (0.1 : ℚ)⟩,
       ⟨"QRS", some (1.6 : ℚ), some (0.1 : ℚ)⟩, ⟨"QRS", some (2.4 : ℚ), some (0.1 : ℚ)⟩] =
      [0.8, 0.8, 0.8] := by
    norm_num [survivingRRs, isQRSEvent, entryOf, rrIntervals, validRR, List.filter]
  rw [calculateStableBPM_ok _ (by norm_num [isQRSEvent, List.filter])
    (by rw [hS]; simp)
    (by rw [hS]; norm_num [jsRound, Int.floor_eq_iff])
    (by rw [hS]; norm_num [jsRound, Int.floor_eq_iff]), hS]
  norm_num [jsRound, Int.floor_eq_iff]

/-- C2 counterexample: QRS events at entries [0, 1.9] satisfy the claim's
hypotheses (2 qualifying QRS events, the single RR interval 1.9 lies in
(0.3, 2.0)), yet the estimator does not return a value in [40, 180] — it
fails with the out-of-range error carrying round(60/1.9) = 32. -/
theorem calculateStableBPM_in_range_cex :
    2 ≤ (([⟨"QRS", some 0, some (0.1 : ℚ)⟩, ⟨"QRS", some (1.9 : ℚ), some (0.1 : ℚ)⟩] :
        List IntervalRecord).filter isQRSEvent).length ∧
      survivingRRs [⟨"QRS", some 0, some (0.1 : ℚ)⟩, ⟨"QRS", some (1.9 : ℚ), some (0.1 : ℚ)⟩] ≠ [] ∧
      calculateStableBPM
        [⟨"QRS", some 0, some (0.1 : ℚ)⟩, ⟨"QRS", some (1.9 : ℚ), some (0.1 : ℚ)⟩] =
        .error (.outOfRange 32) := by
  have hS : survivingRRs
      [⟨"QRS", some 0, some (0.1 : ℚ)⟩, ⟨"QRS", some (1.9 : ℚ), some (0.1 : ℚ)⟩] =
      [1.9] := by
    norm_num [survivingRRs, isQRSEvent, entryOf, rrIntervals, validRR, List.filter]
  refine ⟨by norm_num [isQRSEvent, List.filter], by rw [hS]; simp, ?_⟩
  have h32 : jsRound (60 / (((1.9 : ℚ)) / ((1 : ℕ) : ℚ))) = 32 := by
    norm_num [jsRound, Int.floor_eq_iff]
  have := bpm_eq_outOfRange
    [⟨"QRS", some 0, some (0.1 : ℚ)⟩, ⟨"QRS", some (1.9 : ℚ), some (0.1 : ℚ)⟩]
    (by norm_num [isQRSEvent, List.filter]) (by rw [hS]; simp) ?_
  · rw [this, hS]
    norm_num [jsRound, Int.floor_eq_iff]
  · rw [hS]
    left
    norm_num [jsRound, Int.floor_eq_iff]

/-- C2 amended: with ≥2 qualifying QRS events and at least one RR interval in
(0.3, 2.0), the estimator either returns an integer in [40, 180] or fails with
the out-of-range error; the average of surviving RR intervals in (0.3, 2.0)
only guarantees a rounded BPM in [30, 200], so the out-of-range failure is
reachable. -/
theorem calculateStableBPM_ok_or_outOfRange (intervals : List IntervalRecord)
    (h2 : 2 ≤ (intervals.filter isQRSEvent).length)
    (hs : survivingRRs intervals ≠ []) :
    (∃ b : ℤ, calculateStableBPM intervals = .ok b ∧ 40 ≤ b ∧ b ≤ 180) ∨
      ∃ b : ℤ, calculateStableBPM intervals = .error (.outOfRange b) := by
  by_cases hb :
      jsRound (60 / ((survivingRRs intervals).sum / ((survivingRRs intervals).length : ℚ))) < 40 ∨
        180 < jsRound (60 / ((survivingRRs intervals).sum / ((survivingRRs intervals).length : ℚ)))
  · exact Or.inr ⟨_, bpm_eq_outOfRange intervals (by omega) hs hb⟩
  · rw [not_or, not_lt, not_lt] at hb
    exact Or.inl ⟨_, bpm_eq_ok intervals (by omega) hs hb.1 hb.2, hb.1, hb.2⟩

/-- Witness for the amended C2 at the [0.0, 0.8, 1.6, 2.4] QRS sequence. -/
theorem calculateStableBPM_ok_or_outOfRange_witness :
    (∃ b : ℤ, calculateStableBPM
        [⟨"QRS", some 0, some (0.1 : ℚ)⟩, ⟨"QRS", some (0.8 : ℚ), some (0.1 : ℚ)⟩,
         ⟨"QRS", some (1.6 : ℚ), some (0.1 : ℚ)⟩, ⟨"QRS", some (2.4 : ℚ), some (0.1 : ℚ)⟩] =
          .ok b ∧ 40 ≤ b ∧ b ≤ 180) ∨
      ∃ b : ℤ, calculateStableBPM
        [⟨"QRS", some 0, some (0.1 : ℚ)⟩, ⟨"QRS", some (0.8 : ℚ), some (0.1 : ℚ)⟩,
         ⟨"QRS", some (1.6 : ℚ), some (0.1 : ℚ)⟩, ⟨"QRS", some (2.4 : ℚ), some (0.1 : ℚ)⟩] =
          .error (.outOfRange b) :=
  calculateStableBPM_ok_or_outOfRange _
    (by norm_num [isQRSEvent, List.filter])
    (by norm_num [survivingRRs, isQRSEvent, entryOf, rrIntervals, validRR, List.filter,
      List.cons_ne_nil])

/-- C4: the three failure modes of `calculateStableBPM` hold exactly under
the stated conditions — insufficient-data iff fewer than 2 qualifying QRS
events; given ≥2, no-valid-data iff every RR interval is discarded; given a
surviving RR interval, out-of-range iff the rounded BPM is below 40 or above
180. -/
theorem calculateStableBPM_error_conditions (intervals : List IntervalRecord) :
    (calculateStableBPM intervals = .error .insufficientData ↔
      (intervals.filter isQRSEvent).length < 2) ∧
    (2 ≤ (intervals.filter isQRSEvent).length →
      (calculateStableBPM intervals = .error .noValidRR ↔ survivingRRs intervals = [])) ∧
    (2 ≤ (intervals.filter isQRSEvent).length → survivingRRs intervals ≠ [] →
      ((∃ b : ℤ, calculateStableBPM intervals = .error (.outOfRange b)) ↔
        (jsRound (60 / ((survivingRRs intervals).sum / ((survivingRRs intervals).length : ℚ))) < 40 ∨
          180 < jsRound (60 / ((survivingRRs intervals).sum / ((survivingRRs intervals).length : ℚ)))))) := by
  by_cases hq : (intervals.filter isQRSEvent).length < 2
  · exact ⟨by simp [bpm_eq_insufficient intervals hq, hq], fun h => absurd h (by omega),
      fun h _ => absurd h (by omega)⟩
  · by_cases hrr : survivingRRs intervals = []
    · refine ⟨?_, fun _ => by simp [bpm_eq_noValid intervals hq hrr, hrr], fun _ h => absurd hrr h⟩
      rw [bpm_eq_noValid intervals hq hrr]
      simp [hq]
    · by_cases hb :
          jsRound (60 / ((survivingRRs intervals).sum / ((survivingRRs intervals).length : ℚ))) < 40 ∨
            180 < jsRound (60 / ((survivingRRs intervals).sum / ((survivingRRs intervals).length : ℚ)))
      · have h := bpm_eq_outOfRange intervals hq hrr hb
        refine ⟨by simp [h, hq], fun _ => by simp [h, hrr], fun _ _ => ⟨fun _ => hb, fun _ => ⟨_, h⟩⟩⟩
      · rw [not_or, not_lt, not_lt] at hb
        have h := bpm_eq_ok intervals hq hrr hb.1 hb.2
        refine ⟨by simp [h, hq], fun _ => by simp [h, hrr], fun _ _ => ?_⟩
        constructor
        · rintro ⟨b, hbad⟩
          rw [h] at hbad
          exact absurd hbad (by simp)
        · intro hcontra
          omega

/-- Witness for C4 at a single-QRS-record input, which must fail with the
insufficient-data error. -/
theorem calculateStableBPM_error_conditions_witness :
    calculateStableBPM [⟨"QRS", some 0, some (0.1 : ℚ)⟩] = .error .insufficientData :=
  (calculateStableBPM_error_conditions [⟨"QRS", some 0, some (0.1 : ℚ)⟩]).1.mpr
    (by norm_num [isQRSEvent, List.filter])

/-- C9: the estimator's outcome depends only on the subsequence of records
labelled "QRS" (in order): inputs with identical QRS-labelled subsequences
produce identical results, so records with other phase labels never influence
success, failure kind, or the returned value. -/
theorem calculateStableBPM_QRS_only (l₁ l₂ : List IntervalRecord)
    (h : l₁.filter (fun e => e.phase == "QRS") = l₂.filter fun e => e.phase == "QRS") :
    calculateStableBPM l₁ = calculateStableBPM l₂ := by
  have key : ∀ l : List IntervalRecord,
      l.filter isQRSEvent =
        (l.filter fun e => e.phase == "QRS").filter fun e =>
          e.entry.isSome && e.duration.isSome := by
    intro l
    rw [List.filter_filter]
    apply List.filter_congr
    intro e _
    simp [isQRSEvent, Bool.and_comm, Bool.and_left_comm, Bool.and_assoc]
  unfold calculateStableBPM
  rw [key l₁, key l₂, h]

/-- Witness for C9: a PQ record in one list and an ST record in the other do
not affect the shared single-QRS outcome. -/
theorem calculateStableBPM_QRS_only_witness :
    ([⟨"QRS", some 0, some 1⟩, ⟨"PQ", some 5, some 1⟩] : List IntervalRecord).filter
        (fun e => e.phase == "QRS") =
      ([⟨"ST", some 9, none⟩, ⟨"QRS", some 0, some 1⟩] : List IntervalRecord).filter
        (fun e => e.phase == "QRS") ∧
    calculateStableBPM [⟨"QRS", some 0, some 1⟩, ⟨"PQ", some 5, some 1⟩] =
      calculateStableBPM [⟨"ST", some 9, none⟩, ⟨"QRS", some 0, some 1⟩] := by
  have h : ([⟨"QRS", some 0, some 1⟩, ⟨"PQ", some 5, some 1⟩] : List IntervalRecord).filter
      (fun e => e.phase == "QRS") =
      ([⟨"ST", some 9, none⟩, ⟨"QRS", some 0, some 1⟩] : List IntervalRecord).filter
        (fun e => e.phase == "QRS") := by rfl
  exact ⟨h, calculateStableBPM_QRS_only _ _ h⟩

theorem ecgPhaseValue_eq_amendedWaveform (p : ℚ) : ecgPhaseValue p = amendedWaveform p := by
  unfold ecgPhaseValue amendedWaveform halfSine
  split_ifs
  · have harg : ((p : ℝ) - 0.1) * Real.pi * 10 =
        Real.pi * ((p : ℝ) - ((0.1 : ℚ) : ℝ)) / (((0.2 : ℚ) : ℝ) - ((0.1 : ℚ) : ℝ)) := by
      push_cast
      ring
    rw [harg]
    push_cast
    ring
  · rfl
  · have harg : ((p : ℝ) - 0.2) * Real.pi * 20 =
        2 * Real.pi * ((p : ℝ) - 0.2) / ((0.3 : ℝ) - 0.2) := by ring
    rw [harg]
  · have harg : ((p : ℝ) - 0.4) * Real.pi * 5 =
        Real.pi * ((p : ℝ) - ((0.4 : ℚ) : ℝ)) / (((0.6 : ℚ) : ℝ) - ((0.4 : ℚ) : ℝ)) := by
      push_cast
      ring
    rw [harg]
    push_cast
    ring
  · rfl

/-- C3 counterexample: at N = 30, R = 100, H = 60 (samplesPerBeat = 100) and
sample index 29, posInBeat = 0.29 lies in the Q-wave window [0.20, 0.30)
outside the R sub-window; the code computes `-0.2·sin(20π·0.09)`, a strictly
positive value (the sine argument 1.8π is past a full half-period), while the
claim's Q-wave half-sine `-0.2·sin(π·0.09/0.1)` is strictly negative, so the
noise-free sample value is not the claimed piecewise half-sine waveform. -/
theorem generateRealisticECG_waveform_cex :
    ((generateRealisticECG 30 100 60 fun _ => 0).get? 29).map SamplePoint.value ≠
      some (specWaveform (posInBeat (samplesPerBeat 100 60) 29)) := by
  have hp : posInBeat (samplesPerBeat 100 60) 29 = 29 / 100 := by
    norm_num [posInBeat, samplesPerBeat, jsMod, Int.floor_eq_iff]
  have hc : ecgPhaseValue (29 / 100) =
      -0.2 * Real.sin ((((29 / 100 : ℚ) : ℝ) - 0.2) * Real.pi * 20) := by
    unfold ecgPhaseValue
    rw [if_neg (by norm_num), if_pos (by norm_num), if_neg (by norm_num)]
  have hsp : specWaveform (29 / 100) =
      ((-0.2 : ℚ) : ℝ) *
        Real.sin (Real.pi * (((29 / 100 : ℚ) : ℝ) - ((0.2 : ℚ) : ℝ)) /
          (((0.3 : ℚ) : ℝ) - ((0.2 : ℚ) : ℝ))) := by
    unfold specWaveform halfSine
    rw [if_neg (by norm_num), if_pos (by norm_num), if_neg (by norm_num)]
  have harg1 : (((29 / 100 : ℚ) : ℝ) - 0.2) * Real.pi * 20 = 0.8 * Real.pi + Real.pi := by
    push_cast
    ring
  have harg2 : Real.pi * (((29 / 100 : ℚ) : ℝ) - ((0.2 : ℚ) : ℝ)) /
      (((0.3 : ℚ) : ℝ) - ((0.2 : ℚ) : ℝ)) = 0.9 * Real.pi := by
    push_cast
    ring
  have hs08 : (0 : ℝ) < Real.sin (0.8 * Real.pi) :=
    Real.sin_pos_of_pos_of_lt_pi (by positivity) (by nlinarith [Real.pi_pos])
  have hs09 : (0 : ℝ) < Real.sin (0.9 * Real.pi) :=
    Real.sin_pos_of_pos_of_lt_pi (by positivity) (by nlinarith [Real.pi_pos])
  rw [generateRealisticECG_get? 30 100 60 (fun _ => 0) 29 (by norm_num), hp]
  simp only [Option.map_some', Option.some.injEq]
  intro hbad
  rw [hc, hsp, harg1, harg2, Real.sin_add_pi] at hbad
  replace hbad := Option.some.inj hbad
  push_cast at hbad
  nlinarith [hbad, hs08, hs09]

/-- C3 amended: for every noise-free sample, the value produced by
`generateRealisticECG` equals the piecewise waveform with a P half-sine of
amplitude 0.25 on [0.10, 0.20), a Q-wave full-period sine (not half-sine) of
amplitude -0.2 on [0.20, 0.30) overridden on [0.22, 0.28) by the R wave
`1.5·sin(16.67π·(posInBeat - 0.22))` (literal coefficient 16.67, approximating
a half-sine), a T half-sine of amplitude 0.3 on [0.40, 0.60), and baseline 0
elsewhere. -/
theorem generateRealisticECG_waveform (N : ℕ) (R H : ℚ) (noise : ℕ → ℚ) (i : ℕ)
    (hR : 0 < R) (hH : 0 < H) (hi : i < N) (hz : noise i = 0) :
    ((generateRealisticECG N R H noise).get? i).map SamplePoint.value =
      some (amendedWaveform (posInBeat (samplesPerBeat R H) i)) := by
  rw [generateRealisticECG_get? N R H noise i hi]
  simp [hz, ecgPhaseValue_eq_amendedWaveform]

/-- Witness for the amended C3 at N = 1, R = 100, H = 60, i = 0 with zero
noise. -/
theorem generateRealisticECG_waveform_witness :
    (0 : ℚ) < 100 ∧ (0 : ℚ) < 60 ∧
      ((generateRealisticECG 1 100 60 fun _ => 0).get? 0).map SamplePoint.value =
        some (amendedWaveform (posInBeat (samplesPerBeat 100 60) 0)) :=
  ⟨by norm_num, by norm_num,
    generateRealisticECG_waveform 1 100 60 (fun _ => 0) 0 (by norm_num) (by norm_num)
      (by norm_num) rfl⟩

theorem phaseShape_other (phase : String) (pp : ℚ)
    (h1 : phase ≠ "QRS") (h2 : phase ≠ "PQ") (h3 : phase ≠ "ST") :
    phaseShape phase pp = 0 := by
  simp [phaseShape, h1, h2, h3]

/-- C10: in the worker's interval-walking generator, the first containing
interval (in list order) determines the sample value; a timestamp contained in
no interval's span [entry, entry + duration) yields exactly 0, and so does one
whose first containing interval carries a phase label other than "QRS", "PQ",
"ST". -/
theorem generateECGPoint_baseline (intervals : List PhaseInterval) (t : ℚ) :
    ((∀ iv ∈ intervals, ¬(iv.entry ≤ t ∧ t < iv.entry + iv.duration)) →
      generateECGPoint intervals t = 0) ∧
    (∀ iv : PhaseInterval, (intervals.find? fun iv => containsTime iv t) = some iv →
      generateECGPoint intervals t = phaseShape iv.phase ((t - iv.entry) / iv.duration)) ∧
    (∀ iv : PhaseInterval, (intervals.find? fun iv => containsTime iv t) = some iv →
      iv.phase ≠ "QRS" → iv.phase ≠ "PQ" → iv.phase ≠ "ST" →
      generateECGPoint intervals t = 0) := by
  induction intervals with
  | nil =>
    exact ⟨fun _ => rfl, fun iv h => by simp at h, fun iv h => by simp at h⟩
  | cons head tail ih =>
    by_cases hc : containsTime head t = true
    · have hfind : ((head :: tail).find? fun iv => containsTime iv t) = some head :=
        @List.find?_cons_of_pos _ (fun iv => containsTime iv t) head tail hc
      have hval : generateECGPoint (head :: tail) t =
          phaseShape head.phase ((t - head.entry) / head.duration) := by
        unfold generateECGPoint
        rw [if_pos hc]
      refine ⟨fun hall => ?_, fun iv hiv => ?_, fun iv hiv hq hp hst => ?_⟩
      · exact absurd (of_decide_eq_true hc) (hall head (List.mem_cons_self _ _))
      · rw [hfind, Option.some.injEq] at hiv
        rw [hval, hiv]
      · rw [hfind, Option.some.injEq] at hiv
        subst hiv
        rw [hval]
        exact phaseShape_other _ _ hq hp hst
    · have hfind : ((head :: tail).find? fun iv => containsTime iv t) =
          tail.find? fun iv => containsTime iv t := by
        rw [List.find?_cons_of_neg _ (by simpa using hc)]
      have hval : generateECGPoint (head :: tail) t = generateECGPoint tail t := by
        conv_lhs => unfold generateECGPoint
        rw [if_neg (by simpa using hc)]
      refine ⟨fun hall => ?_, fun iv hiv => ?_, fun iv hiv hq hp hst => ?_⟩
      · rw [hval]
        exact ih.1 fun iv hiv => hall iv (List.mem_cons_of_mem _ hiv)
      · rw [hfind] at hiv
        rw [hval]
        exact ih.2.1 iv hiv
      · rw [hfind] at hiv
        rw [hval]
        exact ih.2.2 iv hiv hq hp hst

/-- Witness for C10: a "XX"-labelled interval containing t = 1/2 yields 0, and
t = 5, contained in no interval, also yields 0. -/
theorem generateECGPoint_baseline_witness :
    generateECGPoint [⟨"XX", 0, 1⟩] (1 / 2) = 0 ∧ generateECGPoint [⟨"XX", 0, 1⟩] 5 = 0 := by
  constructor
  · refine (generateECGPoint_baseline [⟨"XX", 0, 1⟩] (1 / 2)).2.2 ⟨"XX", 0, 1⟩ ?_
      (by simp) (by simp) (by simp)
    exact @List.find?_cons_of_pos _ (fun iv => containsTime iv (1 / 2)) ⟨"XX", 0, 1⟩ []
      (by norm_num [containsTime])
  · refine (generateECGPoint_baseline [⟨"XX", 0, 1⟩] 5).1 fun iv hiv => ?_
    rw [List.mem_singleton] at hiv
    subst hiv
    norm_num

end HeartSim
